/-
Verification of the `ramm-sui-deploy` deployment pipeline.

This file shallowly embeds the Rust code of `ramm-sui-deploy` (the RAMM
deployment tool): its configuration model and validator (`types.rs`), the
object-resolution protocol (`lib.rs`: `build_ramm_obj_arg`,
`build_ramm_cap_obj_args`, `build_aggr_obj_args`, `get_coin_and_gas`), the
batched-transaction builder (`add_assets_and_init_ramm`), the package-id
extraction of `main.rs`, and the fail-closed orchestration of the deployer
binary.

Modelling conventions:
* machine integers (`u8`, `u64`) become `Nat`; the one place where a cast
  truncates (`assets.len() as u8` in `validate_ramm_cfg`) is rendered
  explicitly as `% 256`;
* Rust `Result` becomes `Except`; code that can also `panic!`/`expect`/
  `assert!` returns `PanicOr`, whose `.panic` constructor records the panic
  message, kept distinct from typed errors (`.err`);
* network reads performed through the Sui SDK are passed in as explicit
  query functions (the SDK client is an external collaborator; only the
  shape of its answers matters to the code under verification);
* the SDK `ProgrammableTransactionBuilder` is modelled by its interface as
  used here: registering an input appends a fresh input slot and returns
  its index, appending a Move call appends a command.
-/
import Mathlib

namespace RammSuiDeploy

/-! ### Base ledger types (as used by the deployment tool) -/

/-- A Sui address (32 bytes in reality; abstracted to a `Nat`). -/
structure SuiAddress where
  a : Nat
deriving DecidableEq, Repr, Inhabited

/-- A Sui object identifier (32 bytes in reality; abstracted to a `Nat`). -/
structure ObjectID where
  id : Nat
deriving DecidableEq, Repr, Inhabited

/-- `Into::<ObjectID>::into` for a `SuiAddress` (both are 32-byte values). -/
def ObjectID.ofAddress (addr : SuiAddress) : ObjectID :=
  ⟨addr.a⟩

/-- A transaction digest of an object reference. -/
structure ObjectDigest where
  d : Nat
deriving DecidableEq, Repr, Inhabited

/-- `SequenceNumber`: an object version. -/
abbrev SequenceNumber := Nat

/-- `sui_types::object::Owner`. -/
inductive Owner where
  | AddressOwner (addr : SuiAddress)
  | ObjectOwner (addr : SuiAddress)
  | Shared (initial_shared_version : SequenceNumber)
  | Immutable
deriving DecidableEq, Repr, Inhabited

/-- `Owner::is_shared`. -/
def Owner.is_shared : Owner → Bool
  | .Shared _ => true
  | _ => false

/-- `Owner::is_immutable`. -/
def Owner.is_immutable : Owner → Bool
  | .Immutable => true
  | _ => false

/-- `impl PartialEq<SuiAddress> for Owner`: only `AddressOwner` compares
equal to an address. Used by `oor.owner == client_address` filters. -/
def Owner.eqAddress : Owner → SuiAddress → Bool
  | .AddressOwner a, addr => a == addr
  | _, _ => false

/-- `sui_json_rpc_types::SuiObjectRef`: (id, version, digest). -/
structure SuiObjectRef where
  object_id : ObjectID
  version : SequenceNumber
  digest : ObjectDigest
deriving DecidableEq, Repr, Inhabited

/-- `sui_json_rpc_types::OwnedObjectRef`: a created object, with owner. -/
structure OwnedObjectRef where
  owner : Owner
  reference : SuiObjectRef
deriving DecidableEq, Repr, Inhabited

/-- `OwnedObjectRef::object_id`. -/
def OwnedObjectRef.object_id (oor : OwnedObjectRef) : ObjectID :=
  oor.reference.object_id

/-- The slice of `SuiTransactionBlockEffects` the tool reads: `created()`. -/
structure TransactionBlockEffects where
  created : List OwnedObjectRef
deriving DecidableEq, Repr, Inhabited

/-- The slice of `SuiTransactionBlockResponse` the tool reads: `effects`. -/
structure SuiTransactionBlockResponse where
  effects : Option TransactionBlockEffects
deriving DecidableEq, Repr, Inhabited

/-- `MoveObjectType`, reduced to what the tool inspects: its simple name. -/
structure MoveObjectType where
  name : String
deriving DecidableEq, Repr, Inhabited

/-- `sui_types::base_types::ObjectType`. -/
inductive ObjectType where
  | Package
  | Struct (mot : MoveObjectType)
deriving DecidableEq, Repr, Inhabited

/-- The slice of `SuiObjectData` the tool reads: declared type and owner. -/
structure SuiObjectData where
  object_type : Option ObjectType
  owner : Option Owner
deriving DecidableEq, Repr, Inhabited

/-- `SuiObjectResponse`; `.object()` errors exactly when `data` is `none`. -/
structure SuiObjectResponse where
  data : Option SuiObjectData
deriving DecidableEq, Repr, Inhabited

/-- `sui_types::transaction::ObjectArg` (the variants the tool builds). -/
inductive ObjectArg where
  | ImmOrOwnedObject (objRef : SuiObjectRef)
  | SharedObject (id : ObjectID) (initial_shared_version : SequenceNumber)
      (mutable : Bool)
deriving DecidableEq, Repr, Inhabited

/-- `ObjectArg::id`. -/
def ObjectArg.id : ObjectArg → ObjectID
  | .ImmOrOwnedObject r => r.object_id
  | .SharedObject i _ _ => i

/-- A gas coin, reduced to what the tool reads: balance and object ref. -/
structure Coin where
  balance : Nat
  coin_object_ref : SuiObjectRef
deriving DecidableEq, Repr, Inhabited

/-- `Coin::object_ref`. -/
def Coin.object_ref (c : Coin) : SuiObjectRef :=
  c.coin_object_ref

/-! ### Failure modelling -/

/-- Outcome of Rust code that returns `Result<α, ε>` but may also panic
(`panic!`, `expect`, `unwrap`, failed `assert!`). `.panic` carries the
panic message, and is distinct from a typed error `.err`. -/
inductive PanicOr (ε α : Type) where
  | ok (a : α)
  | err (e : ε)
  | panic (msg : String)
deriving DecidableEq, Repr

/-- Whether a `PanicOr` outcome is a success. -/
def PanicOr.isOk {ε α : Type} : PanicOr ε α → Bool
  | .ok _ => true
  | _ => false

/-- Whether a `PanicOr` outcome is a panic (as opposed to a typed error). -/
def PanicOr.isPanic {ε α : Type} : PanicOr ε α → Bool
  | .panic _ => true
  | _ => false

/-- Map a fallible function over a list, short-circuiting on the first
failure (the embedding of an iterator `map` whose body can panic). -/
def PanicOr.mapList {ε α β : Type} (f : α → PanicOr ε β) :
    List α → PanicOr ε (List β)
  | [] => .ok []
  | x :: xs =>
    match f x with
    | .ok y =>
      match PanicOr.mapList f xs with
      | .ok ys => .ok (y :: ys)
      | .err e => .err e
      | .panic m => .panic m
    | .err e => .err e
    | .panic m => .panic m

/-- `error::RAMMDeploymentError`, payloads elided (they wrap foreign error
types the tool never inspects). -/
inductive RAMMDeploymentError where
  | TOMLFileReadError
  | CLIError
  | NoTOMLConfigProvided
  | TOMLParseError
  | InvalidConfigData
  | SuibaseWorkdirError
  | RpcUrlSelectionError
  | BuildSuiClientFromRpcUrlError
  | KeystorePathnameError
  | KeystoreOpenError
  | PkgBuildError
  | PublishTxError
  | TxSignatureError
  | TxBlockExecutionError
  | NewRammTxError
  | CapObjectQueryError
  | AggregatorDataQueryError
  | AggregatorObjectResponseError
  | AggregatorObjectOwnerError
  | CoinQueryError
  | GasPriceQueryError
deriving DecidableEq, Repr

/-! ### Configuration model (`types.rs`) -/

/-- `ASSET_MIN_DECIMAL_PLACES` in `types.rs`. -/
def ASSET_MIN_DECIMAL_PLACES : Nat := 4

/-- `types.rs`: `AssetConfig`. The `TypeTag` is kept in its string form
(the tool only parses it from a string and passes it along). -/
structure AssetConfig where
  asset_type : String
  aggregator_address : SuiAddress
  minimum_trade_amount : Nat
  decimal_places : Nat
deriving DecidableEq, Repr, Inhabited

/-- `types.rs`: `RAMMPkgAddrSrc`. `PathBuf` is kept as a string. -/
inductive RAMMPkgAddrSrc where
  | FromTomlConfig (addr : ObjectID)
  | FromPkgPublication (path : String)
deriving DecidableEq, Repr, Inhabited

/-- `PathBuf::from_str`: its error type is `Infallible`, so it always
succeeds; the empty error type records that. -/
def pathBufFromStr (s : String) : Except Empty String :=
  .ok s

/-- `types.rs`: `de_addr_or_path`. The `ObjectID::from_str` parser lives in
`sui_types` (external), so it is passed in as a function; `some` is its
`Ok` case. The `map_err(de::Error::custom)` on the path branch can never
fire because `pathBufFromStr` has an empty error type. -/
def de_addr_or_path (parseObjectID : String → Option ObjectID) (s : String) :
    Except String RAMMPkgAddrSrc :=
  match parseObjectID s with
  | some obj => .ok (.FromTomlConfig obj)
  | none =>
    match pathBufFromStr s with
    | .ok p => .ok (.FromPkgPublication p)
    | .error e => nomatch e

/-- `types.rs`: `RAMMDeploymentConfig`. `asset_count` is a `u8` in the
source; values the Rust type can hold are exactly those `< 256`. -/
structure RAMMDeploymentConfig where
  target_env : String
  ramm_pkg_addr_or_path : RAMMPkgAddrSrc
  asset_count : Nat
  fee_collection_address : SuiAddress
  assets : List AssetConfig
deriving DecidableEq, Repr, Inhabited

/-- `types.rs`: `RAMMDeploymentConfig::validate_ramm_cfg`. The comparison
`self.asset_count == (self.assets.len() as u8)` truncates the length to a
byte, rendered here as `% 256`. -/
def RAMMDeploymentConfig.validate_ramm_cfg (cfg : RAMMDeploymentConfig) :
    Bool :=
  (cfg.asset_count == cfg.assets.length % 256) &&
  (cfg.asset_count > 0) &&
  (["active", "testnet", "mainnet"].contains cfg.target_env) &&
  (cfg.assets.all (fun asset =>
    asset.decimal_places ≥ ASSET_MIN_DECIMAL_PLACES))

/-! ### Gas context (`lib.rs`: `get_coin_and_gas`) -/

/-- `lib.rs`: `get_coin_and_gas`. The two network queries (coins of the
address, reference gas price) are passed in as their results. The first
listed coin is taken via `.next().expect(..)`, a panic when the list is
empty; the coin balance is never inspected. -/
def get_coin_and_gas (coinsQuery : Except Unit (List Coin))
    (gasQuery : Except Unit Nat) :
    PanicOr RAMMDeploymentError (Coin × Nat) :=
  match coinsQuery with
  | .error _ => .err .CoinQueryError
  | .ok coins =>
    match coins with
    | [] => .panic "No coins associated to active address!"
    | coin :: _ =>
      match gasQuery with
      | .error _ => .err .GasPriceQueryError
      | .ok gas_price => .ok (coin, gas_price)

/-! ### Primitive extraction (`lib.rs`: `build_ramm_obj_arg`) -/

/-- `lib.rs`: `build_ramm_obj_arg`. Filters the created objects of the RAMM
creation response for shared ones, then takes `.first().expect(..)` (a
panic when there is none), and converts it to a mutable shared
`ObjectArg`. The inner `match` on the owner cannot reach its panic arm in
Rust either, but is kept. -/
def build_ramm_obj_arg (new_ramm_rx_response : SuiTransactionBlockResponse) :
    PanicOr RAMMDeploymentError ObjectArg :=
  match new_ramm_rx_response.effects with
  | none => .panic "RAMM creation tx *should* result in non-empty effects"
  | some effects =>
    let owned_obj_refs :=
      effects.created.filter (fun oor => oor.owner.is_shared)
    match owned_obj_refs.head? with
    | none =>
      .panic "The RAMM creation should result in *exactly* 1 new shared object"
    | some ramm_owned_obj_ref =>
      match ramm_owned_obj_ref.owner with
      | .Shared initial_shared_version =>
        .ok (.SharedObject ramm_owned_obj_ref.object_id
              initial_shared_version true)
      | _ => .panic "The RAMM OwnedObjectRef owner is supposed to be shared!"

/-! ### Capability disambiguation (`lib.rs`: `build_ramm_cap_obj_args`) -/

/-- Body of the `map` in `build_ramm_cap_obj_args`: convert an owned
created object into an `ImmOrOwnedObject` argument. The `assert!` and the
catch-all arm become panics. -/
def cap_obj_arg_of (client_address : SuiAddress) (oor : OwnedObjectRef) :
    PanicOr RAMMDeploymentError ObjectArg :=
  match oor.owner with
  | .AddressOwner addr =>
    if addr == client_address then
      .ok (.ImmOrOwnedObject oor.reference)
    else
      .panic "assertion failed: addr == client_address"
  | _ => .panic "RAMM Cap OwnedObjectRef::owner supposed to be AddressOwner!"

/-- `lib.rs`: `build_ramm_cap_obj_args`. The single network read
(`get_object_with_options` with type metadata requested) is passed in as
`read_object`. The `assert!(cap_obj_args.len() == 2)` and the subsequent
`[0]`/`[1]` indexing are rendered as a two-element list match. The two
`unwrap`s on `.object()` and `.object_type()` become panics. -/
def build_ramm_cap_obj_args
    (read_object : ObjectID → Except Unit SuiObjectResponse)
    (new_ramm_rx_response : SuiTransactionBlockResponse)
    (client_address : SuiAddress) :
    PanicOr RAMMDeploymentError (ObjectArg × ObjectArg) :=
  match new_ramm_rx_response.effects with
  | none => .panic "RAMM creation tx *should* result in non-empty effects"
  | some effects =>
    match PanicOr.mapList (cap_obj_arg_of client_address)
        (effects.created.filter
          (fun oor => oor.owner.eqAddress client_address)) with
    | .err e => .err e
    | .panic m => .panic m
    | .ok cap_obj_args =>
      match cap_obj_args with
      | [cap0, cap1] =>
        match read_object cap0.id with
        | .error _ => .err .CapObjectQueryError
        | .ok cap_object =>
          match cap_object.data with
          | none => .panic "called unwrap on a None value"
          | some obj_data =>
            match obj_data.object_type with
            | none => .panic "called unwrap on a None value"
            | some .Package =>
              .panic "Type of cap object is ObjectType::Package: not supposed to happen!"
            | some (.Struct cap_move_obj_ty) =>
              if cap_move_obj_ty.name = "RAMMAdminCap" then
                .ok (cap0, cap1)
              else if cap_move_obj_ty.name = "RAMMNewAssetCap" then
                .ok (cap1, cap0)
              else
                .panic "MoveObjectType must be of either capability: not supposed to happen!"
      | _ => .panic "assertion failed: cap_obj_args.len() == 2"

/-- The simple type name a read query reports for an object: `some nm`
exactly when the query succeeds, carries object data, and that data has a
declared struct type named `nm`. -/
def query_type_name (read_object : ObjectID → Except Unit SuiObjectResponse)
    (id : ObjectID) : Option String :=
  match read_object id with
  | .error _ => none
  | .ok resp =>
    match resp.data with
    | none => none
    | some d =>
      match d.object_type with
      | some (.Struct mot) => some mot.name
      | _ => none

/-! ### Aggregator resolution (`lib.rs`: `build_aggr_obj_args`) -/

/-- The `for (ix, aggr_obj) in aggr_objs.iter().enumerate()` loop of
`build_aggr_obj_args`. `.object()` errors become
`AggregatorObjectResponseError`, a missing owner becomes
`AggregatorObjectOwnerError`, a non-shared owner panics, and the
`aggr_ids[ix]` indexing panics when out of bounds. -/
def aggr_loop (aggr_ids : List ObjectID) :
    List SuiObjectResponse → Nat → List ObjectArg →
    PanicOr RAMMDeploymentError (List ObjectArg)
  | [], _, acc => .ok acc
  | aggr_obj :: rest, ix, acc =>
    match aggr_obj.data with
    | none => .err .AggregatorObjectResponseError
    | some d =>
      match d.owner with
      | none => .err .AggregatorObjectOwnerError
      | some (.Shared initial_shared_version) =>
        match aggr_ids[ix]? with
        | none => .panic "index out of bounds"
        | some id =>
          aggr_loop aggr_ids rest (ix + 1)
            (acc ++ [.SharedObject id initial_shared_version false])
      | some _ => .panic "Owner of Aggregator object must be Shared"

/-- `lib.rs`: `build_aggr_obj_args`. The single batched read
(`multi_get_object_with_options`) is passed in as `query`. After the loop,
`assert_eq!(aggr_obj_args.len(), asset_count as usize)` panics on
mismatch. -/
def build_aggr_obj_args
    (query : List ObjectID → Except Unit (List SuiObjectResponse))
    (dplymt_cfg : RAMMDeploymentConfig) :
    PanicOr RAMMDeploymentError (List ObjectArg) :=
  let aggr_ids := dplymt_cfg.assets.map
    (fun asset => ObjectID.ofAddress asset.aggregator_address)
  match query aggr_ids with
  | .error _ => .err .AggregatorDataQueryError
  | .ok aggr_objs =>
    match aggr_loop aggr_ids aggr_objs 0 [] with
    | .err e => .err e
    | .panic m => .panic m
    | .ok aggr_obj_args =>
      if aggr_obj_args.length = dplymt_cfg.asset_count then
        .ok aggr_obj_args
      else
        .panic "assertion failed: aggr_obj_args.len() == asset_count"

/-- A well-formed but non-shared aggregator query result: object data and
owner are present, and the owner is not `Shared`. -/
def wf_non_shared (o : SuiObjectResponse) : Prop :=
  ∃ d, o.data = some d ∧ ∃ ow, d.owner = some ow ∧ ∀ v, ow ≠ .Shared v

/-! ### Package publication result extraction (`main.rs`) -/

/-- `main.rs`, step 6: extraction of `ramm_package_id` from the publish
transaction response. Filters created objects for immutable ownership,
then takes `.first().expect(..)` (a panic when there is none) and reads
its object id. -/
def ramm_package_id_from_publish_response
    (response : SuiTransactionBlockResponse) :
    PanicOr RAMMDeploymentError ObjectID :=
  match response.effects with
  | none => .panic "Publish Tx *should* result in non-empty effects"
  | some effects =>
    match (effects.created.filter
        (fun oor => oor.owner.is_immutable)).head? with
    | none =>
      .panic "Publish Tx *should* result in at least 1 immutable object, i.e. the published package"
    | some oor => .ok oor.reference.object_id

/-! ### Programmable transaction model (SDK builder interface) -/

/-- `sui_types::transaction::Argument` (the variants this tool produces:
`ptb.obj`/`ptb.pure` hand back `Input` indices). -/
inductive Argument where
  | GasCoin
  | Input (ix : Nat)
  | Result (ix : Nat)
deriving DecidableEq, Repr, Inhabited

/-- A pure (BCS-encoded) transaction input; this tool only encodes `u64`
minimum trade amounts and `u8` decimal-place counts. -/
inductive PureValue where
  | u64 (n : Nat)
  | u8 (n : Nat)
deriving DecidableEq, Repr, Inhabited

/-- `sui_types::transaction::CallArg`. -/
inductive CallArg where
  | Object (o : ObjectArg)
  | Pure (v : PureValue)
deriving DecidableEq, Repr, Inhabited

/-- `sui_types::transaction::Command` (only `MoveCall` is ever built here).
Type arguments are kept as the strings the `TypeTag`s were parsed from. -/
inductive Command where
  | MoveCall (package : ObjectID) (module_name : String) (fname : String)
      (type_arguments : List String) (arguments : List Argument)
deriving DecidableEq, Repr, Inhabited

/-- Whether a command is a Move call into `pkg` of the function `f`. -/
def Command.is_call_to (c : Command) (pkg : ObjectID) (f : String) : Bool :=
  match c with
  | .MoveCall package _ fname _ _ => package == pkg && fname == f

/-- The SDK `ProgrammableTransactionBuilder`, modelled by its interface as
used by this tool: an ordered list of registered inputs and an ordered
list of appended commands. -/
structure ProgrammableTransactionBuilder where
  inputs : List CallArg
  commands : List Command
deriving DecidableEq, Repr, Inhabited

/-- `ProgrammableTransactionBuilder::new`. -/
def ProgrammableTransactionBuilder.new : ProgrammableTransactionBuilder :=
  ⟨[], []⟩

/-- `ptb.obj(..)`: register an object input, returning the argument that
refers to its slot. -/
def ProgrammableTransactionBuilder.obj (p : ProgrammableTransactionBuilder)
    (o : ObjectArg) : ProgrammableTransactionBuilder × Argument :=
  (⟨p.inputs ++ [.Object o], p.commands⟩, .Input p.inputs.length)

/-- `ptb.pure(..)` at a `u64` value. -/
def ProgrammableTransactionBuilder.pureU64
    (p : ProgrammableTransactionBuilder) (n : Nat) :
    ProgrammableTransactionBuilder × Argument :=
  (⟨p.inputs ++ [.Pure (.u64 n)], p.commands⟩, .Input p.inputs.length)

/-- `ptb.pure(..)` at a `u8` value. -/
def ProgrammableTransactionBuilder.pureU8
    (p : ProgrammableTransactionBuilder) (n : Nat) :
    ProgrammableTransactionBuilder × Argument :=
  (⟨p.inputs ++ [.Pure (.u8 n)], p.commands⟩, .Input p.inputs.length)

/-- `ptb.programmable_move_call(..)`: append a Move call command. -/
def ProgrammableTransactionBuilder.programmable_move_call
    (p : ProgrammableTransactionBuilder) (package : ObjectID)
    (module_name : String) (fname : String) (type_arguments : List String)
    (arguments : List Argument) : ProgrammableTransactionBuilder :=
  ⟨p.inputs, p.commands ++ [.MoveCall package module_name fname
    type_arguments arguments]⟩

/-- `sui_types::transaction::ProgrammableTransaction`. -/
structure ProgrammableTransaction where
  inputs : List CallArg
  commands : List Command
deriving DecidableEq, Repr, Inhabited

/-- `ptb.finish()`. -/
def ProgrammableTransactionBuilder.finish
    (p : ProgrammableTransactionBuilder) : ProgrammableTransaction :=
  ⟨p.inputs, p.commands⟩

/-- The slice of `TransactionData::new_programmable` the tool fills in. -/
structure TransactionData where
  sender : SuiAddress
  gas_payment : List SuiObjectRef
  pt : ProgrammableTransaction
  gas_budget : Nat
  gas_price : Nat
deriving DecidableEq, Repr, Inhabited

/-- `RAMM_MODULE_NAME` in `lib.rs`. -/
def RAMM_MODULE_NAME : String := "ramm"

/-- `RAMM_PTB_GAS_BUDGET` in `lib.rs`. -/
def RAMM_PTB_GAS_BUDGET : Nat := 100000000

/-! ### Batched transaction builder (`lib.rs`: `add_assets_and_init_ramm`) -/

/-- The `for ix in 0..(asset_count as usize)` loop of
`add_assets_and_init_ramm`, recursing over the list of loop indices. The
`dplymt_cfg.assets[ix]` and `aggr_obj_args[ix]` indexing panics when out
of bounds. -/
def add_assets_loop (dplymt_cfg : RAMMDeploymentConfig)
    (ramm_package_id : ObjectID)
    (ramm_arg admin_cap_arg new_asset_cap_arg : Argument)
    (aggr_obj_args : List ObjectArg) :
    List Nat → ProgrammableTransactionBuilder →
    PanicOr RAMMDeploymentError ProgrammableTransactionBuilder
  | [], ptb => .ok ptb
  | ix :: rest, ptb =>
    match dplymt_cfg.assets[ix]?, aggr_obj_args[ix]? with
    | some asset_data, some aggr_obj =>
      let step1 := ptb.obj aggr_obj
      let step2 := step1.1.pureU64 asset_data.minimum_trade_amount
      let step3 := step2.1.pureU8 asset_data.decimal_places
      let move_call_args : List Argument :=
        [ramm_arg, step1.2, step2.2, step3.2, admin_cap_arg,
         new_asset_cap_arg]
      let ptb4 := step3.1.programmable_move_call ramm_package_id
        RAMM_MODULE_NAME "add_asset_to_ramm" [asset_data.asset_type]
        move_call_args
      add_assets_loop dplymt_cfg ramm_package_id ramm_arg admin_cap_arg
        new_asset_cap_arg aggr_obj_args rest ptb4
    | _, _ => .panic "index out of bounds"

/-- `lib.rs`: `add_assets_and_init_ramm`. Registers the RAMM, admin-cap
and new-asset-cap inputs, runs the add-asset loop, appends the
`initialize_ramm` call, finishes the PTB and wraps it in transaction
data. -/
def add_assets_and_init_ramm (dplymt_cfg : RAMMDeploymentConfig)
    (client_address : SuiAddress) (ramm_package_id : ObjectID)
    (ramm_obj_arg admin_cap_obj_arg new_asset_cap_obj_arg : ObjectArg)
    (aggr_obj_args : List ObjectArg) (coin : Coin) (gas_price : Nat) :
    PanicOr RAMMDeploymentError TransactionData :=
  let ptb0 := ProgrammableTransactionBuilder.new
  let step1 := ptb0.obj ramm_obj_arg
  let step2 := step1.1.obj admin_cap_obj_arg
  let step3 := step2.1.obj new_asset_cap_obj_arg
  match add_assets_loop dplymt_cfg ramm_package_id step1.2 step2.2
      step3.2 aggr_obj_args
      (List.range dplymt_cfg.asset_count) step3.1 with
  | .err e => .err e
  | .panic m => .panic m
  | .ok ptb =>
    let ptb5 := ptb.programmable_move_call ramm_package_id RAMM_MODULE_NAME
      "initialize_ramm" [] [step1.2, step2.2, step3.2]
    let pt := ptb5.finish
    .ok { sender := client_address,
          gas_payment := [coin.object_ref],
          pt := pt,
          gas_budget := RAMM_PTB_GAS_BUDGET,
          gas_price := gas_price }

/-! ### Closed forms for the add-asset loop -/

/-- The three inputs a single loop iteration registers, in order. -/
def asset_input_triple (asset : AssetConfig) (aggr : ObjectArg) :
    List CallArg :=
  [.Object aggr, .Pure (.u64 asset.minimum_trade_amount),
   .Pure (.u8 asset.decimal_places)]

/-- Inputs registered by the add-asset loop over the given indices. -/
def loop_inputs (dplymt_cfg : RAMMDeploymentConfig)
    (aggr_obj_args : List ObjectArg) : List Nat → List CallArg
  | [] => []
  | ix :: rest =>
    asset_input_triple (dplymt_cfg.assets.getD ix default)
        (aggr_obj_args.getD ix default) ++
      loop_inputs dplymt_cfg aggr_obj_args rest

/-- The add-asset call for the asset at index `ix`, when the three inputs
it registers occupy slots `base`, `base+1`, `base+2`. -/
def add_asset_command (dplymt_cfg : RAMMDeploymentConfig)
    (ramm_package_id : ObjectID)
    (ramm_arg admin_cap_arg new_asset_cap_arg : Argument)
    (ix base : Nat) : Command :=
  .MoveCall ramm_package_id RAMM_MODULE_NAME "add_asset_to_ramm"
    [(dplymt_cfg.assets.getD ix default).asset_type]
    [ramm_arg, .Input base, .Input (base + 1), .Input (base + 2),
     admin_cap_arg, new_asset_cap_arg]

/-- Commands appended by the add-asset loop over the given indices, when
the first iteration registers its inputs starting at slot `base`. -/
def loop_commands (dplymt_cfg : RAMMDeploymentConfig)
    (ramm_package_id : ObjectID)
    (ramm_arg admin_cap_arg new_asset_cap_arg : Argument) :
    Nat → List Nat → List Command
  | _, [] => []
  | base, ix :: rest =>
    add_asset_command dplymt_cfg ramm_package_id ramm_arg admin_cap_arg
        new_asset_cap_arg ix base ::
      loop_commands dplymt_cfg ramm_package_id ramm_arg admin_cap_arg
        new_asset_cap_arg (base + 3) rest

/-! ### Config parsing and fail-closed orchestration
(`lib.rs`: `parse_ramm_cfg`, `deployment_cfg_from_args`;
`bin/ramm_sui_deploy.rs`: `main`, `ramm_deployment`) -/

/-- `lib.rs`: `parse_ramm_cfg`. Filesystem read and TOML deserialization
are passed in as functions; a failed validation is rejected with
`InvalidConfigData`. -/
def parse_ramm_cfg (read_file : String → Except Unit String)
    (parse_toml : String → Except Unit RAMMDeploymentConfig)
    (toml_path : String) :
    Except RAMMDeploymentError RAMMDeploymentConfig :=
  match read_file toml_path with
  | .error _ => .error .TOMLFileReadError
  | .ok config_string =>
    match parse_toml config_string with
    | .error _ => .error .TOMLParseError
    | .ok cfg =>
      match cfg.validate_ramm_cfg with
      | true => .ok cfg
      | _ => .error .InvalidConfigData

/-- `lib.rs`: `deployment_cfg_from_args`. The clap CLI step is reduced to
its outcome: an error, no TOML path, or a TOML path. -/
def deployment_cfg_from_args (read_file : String → Except Unit String)
    (parse_toml : String → Except Unit RAMMDeploymentConfig)
    (cli : Except Unit (Option String)) :
    Except RAMMDeploymentError RAMMDeploymentConfig :=
  match cli with
  | .error _ => .error .CLIError
  | .ok none => .error .NoTOMLConfigProvided
  | .ok (some toml_path) => parse_ramm_cfg read_file parse_toml toml_path

/-- `lib.rs`: `UserAssent`. -/
inductive UserAssent where
  | Rejected
  | Accepted
deriving DecidableEq, Repr

/-- The network operations the deployer binary can perform, in the order
`ramm_deployment` issues them. Building a transaction and submitting it
are collapsed into the single submit operation. -/
inductive NetworkOp where
  | buildClient
  | publishPackage
  | execNewRammTx
  | readCapObject
  | readAggrObjects
  | queryCoins
  | queryGasPrice
  | execPTB
deriving DecidableEq, Repr

/-- Outcomes of the fallible network steps of `ramm_deployment`: `true`
means the step succeeded (so control flow continues to the next step). -/
structure NetEnv where
  build_client_ok : Bool
  publish_ok : Bool
  new_ramm_ok : Bool
  cap_query_ok : Bool
  aggr_query_ok : Bool
  coin_query_ok : Bool
  gas_query_ok : Bool
deriving DecidableEq, Repr

/-- Network operations of `ramm_deployment` after the package id is in
hand: RAMM creation, capability read, aggregator reads, coin and gas
queries, PTB submission; each step runs only if the previous one
succeeded. -/
def after_pkg_ops (env : NetEnv) : List NetworkOp :=
  .execNewRammTx ::
    (if !env.new_ramm_ok then [] else
      .readCapObject ::
        (if !env.cap_query_ok then [] else
          .readAggrObjects ::
            (if !env.aggr_query_ok then [] else
              .queryCoins ::
                (if !env.coin_query_ok then [] else
                  .queryGasPrice ::
                    (if !env.gas_query_ok then [] else [.execPTB])))))

/-- The ordered network operations `bin/ramm_sui_deploy.rs`'s
`ramm_deployment` performs, given the step outcomes: client construction
first, then (on the publish branch only) package publication, then the
post-package steps. -/
def ramm_deployment_ops (cfg : RAMMDeploymentConfig) (env : NetEnv) :
    List NetworkOp :=
  .buildClient ::
    (if !env.build_client_ok then [] else
      match cfg.ramm_pkg_addr_or_path with
      | .FromTomlConfig _ => after_pkg_ops env
      | .FromPkgPublication _ =>
        .publishPackage ::
          (if !env.publish_ok then [] else after_pkg_ops env))

/-- The network operations of a whole run of the deployer binary's `main`:
config parsing failure or a user rejection returns before `ramm_deployment`
is ever called, so no network operation occurs. -/
def main_bin_ops (read_file : String → Except Unit String)
    (parse_toml : String → Except Unit RAMMDeploymentConfig)
    (cli : Except Unit (Option String)) (assent : UserAssent)
    (env : NetEnv) : List NetworkOp :=
  match deployment_cfg_from_args read_file parse_toml cli with
  | .error _ => []
  | .ok cfg =>
    match assent with
    | .Rejected => []
    | .Accepted => ramm_deployment_ops cfg env

/-! ### Concrete inputs used by witnesses and counterexamples -/

/-- A representative asset configuration. -/
def usdc_asset : AssetConfig :=
  { asset_type := "0xA::usdc::USDC", aggregator_address := ⟨100⟩,
    minimum_trade_amount := 1000, decimal_places := 6 }

/-- A second representative asset configuration. -/
def eth_asset : AssetConfig :=
  { asset_type := "0xA::eth::ETH", aggregator_address := ⟨101⟩,
    minimum_trade_amount := 1, decimal_places := 8 }

/-- A well-formed two-asset deployment configuration. -/
def good_cfg : RAMMDeploymentConfig :=
  { target_env := "testnet", ramm_pkg_addr_or_path := .FromTomlConfig ⟨2⟩,
    asset_count := 2, fee_collection_address := ⟨3⟩,
    assets := [usdc_asset, eth_asset] }

/-- A configuration whose asset list has 257 entries while `asset_count`
is 1: the `as u8` truncation makes the validator accept it. -/
def overlong_cfg : RAMMDeploymentConfig :=
  { target_env := "testnet", ramm_pkg_addr_or_path := .FromTomlConfig ⟨2⟩,
    asset_count := 1, fee_collection_address := ⟨3⟩,
    assets := List.replicate 257 usdc_asset }

/-- An immutable created-object reference with the given id. -/
def imm_oor (n : Nat) : OwnedObjectRef :=
  { owner := .Immutable,
    reference := { object_id := ⟨n⟩, version := 1, digest := ⟨n⟩ } }

/-- A shared created-object reference with the given id and version. -/
def shared_oor (n v : Nat) : OwnedObjectRef :=
  { owner := .Shared v,
    reference := { object_id := ⟨n⟩, version := v, digest := ⟨n⟩ } }

/-- A created-object reference owned by the given address. -/
def owned_oor (n : Nat) (addr : SuiAddress) : OwnedObjectRef :=
  { owner := .AddressOwner addr,
    reference := { object_id := ⟨n⟩, version := 1, digest := ⟨n⟩ } }

/-- Effects of a publish transaction that created two immutable objects. -/
def two_imm_effects : TransactionBlockEffects :=
  ⟨[imm_oor 10, imm_oor 11]⟩

/-- Response of a publish transaction that created two immutable objects. -/
def two_imm_response : SuiTransactionBlockResponse :=
  ⟨some two_imm_effects⟩

/-- Effects of a publish transaction that created one immutable object. -/
def one_imm_effects : TransactionBlockEffects :=
  ⟨[imm_oor 7]⟩

/-- Response of a publish transaction that created one immutable object. -/
def one_imm_response : SuiTransactionBlockResponse :=
  ⟨some one_imm_effects⟩

/-- Effects of a creation transaction that created two shared objects. -/
def two_shared_effects : TransactionBlockEffects :=
  ⟨[shared_oor 20 5, shared_oor 21 6]⟩

/-- Response of a creation transaction that created two shared objects. -/
def two_shared_response : SuiTransactionBlockResponse :=
  ⟨some two_shared_effects⟩

/-- Effects of a well-shaped RAMM creation transaction: one shared object
and two objects owned by address 42. -/
def creation_effects : TransactionBlockEffects :=
  ⟨[shared_oor 30 9, owned_oor 31 ⟨42⟩, owned_oor 32 ⟨42⟩]⟩

/-- Response of a well-shaped RAMM creation transaction. -/
def creation_response : SuiTransactionBlockResponse :=
  ⟨some creation_effects⟩

/-- An aggregator query result that is shared at the given version. -/
def shared_aggr_resp (v : Nat) : SuiObjectResponse :=
  ⟨some ⟨none, some (.Shared v)⟩⟩

/-- An aggregator query result owned by an address (not shared). -/
def owned_aggr_resp (addr : SuiAddress) : SuiObjectResponse :=
  ⟨some ⟨none, some (.AddressOwner addr)⟩⟩

/-- A batched-read stub returning two shared aggregator objects. -/
def good_aggr_query : List ObjectID → Except Unit (List SuiObjectResponse) :=
  fun _ => .ok [shared_aggr_resp 5, shared_aggr_resp 6]

/-- A batched-read stub whose second aggregator object is address-owned. -/
def bad_aggr_query : List ObjectID → Except Unit (List SuiObjectResponse) :=
  fun _ => .ok [shared_aggr_resp 5, owned_aggr_resp ⟨9⟩]

/-- A configuration rejected by validation: zero assets. -/
def zero_count_cfg : RAMMDeploymentConfig :=
  { target_env := "testnet", ramm_pkg_addr_or_path := .FromTomlConfig ⟨2⟩,
    asset_count := 0, fee_collection_address := ⟨3⟩, assets := [] }

/-! ### Theorems -/

set_option maxRecDepth 4000 in
/-- C3 (counterexample): a configuration with 257 assets and
`asset_count = 1` passes validation although `asset_count` differs from
the length of the asset list, because `assets.len() as u8` truncates 257
to 1. This falsifies the claimed iff as stated. -/
theorem C3_counterexample :
    overlong_cfg.validate_ramm_cfg = true ∧
      overlong_cfg.asset_count ≠ overlong_cfg.assets.length := by
  constructor
  · simp [overlong_cfg, RAMMDeploymentConfig.validate_ramm_cfg,
      List.all_eq_true, List.mem_replicate, usdc_asset,
      ASSET_MIN_DECIMAL_PLACES]
  · simp [overlong_cfg]

/-- C3 (amended): `validate_ramm_cfg` returns `true` iff `asset_count`
equals the asset-list length reduced modulo 256 (the `as u8` cast; the two
agree whenever the list has at most 255 entries), `asset_count` is
positive, the target network is one of `active`, `testnet`, `mainnet`, and
every asset has at least `ASSET_MIN_DECIMAL_PLACES` (4) decimal places. -/
theorem C3_validate_iff (cfg : RAMMDeploymentConfig) :
    cfg.validate_ramm_cfg = true ↔
      (cfg.asset_count = cfg.assets.length % 256 ∧
        0 < cfg.asset_count ∧
        (cfg.target_env = "active" ∨ cfg.target_env = "testnet" ∨
          cfg.target_env = "mainnet") ∧
        ∀ asset ∈ cfg.assets,
          ASSET_MIN_DECIMAL_PLACES ≤ asset.decimal_places) := by
  simp [RAMMDeploymentConfig.validate_ramm_cfg, List.all_eq_true, and_assoc]

/-- C3 (witness for the amended iff): the two-asset testnet configuration
validates, by the right-to-left direction of the iff. -/
theorem C3_witness : good_cfg.validate_ramm_cfg = true :=
  (C3_validate_iff good_cfg).mpr
    ⟨by decide, by decide, Or.inr (Or.inl rfl), by decide⟩

/-- C5 (counterexample): a publish response with two immutable created
objects does not fail; the extraction returns the first immutable
object's id. This falsifies the claim that two-or-more immutable objects
yield a protocol-invariant error. -/
theorem C5_counterexample :
    (two_imm_effects.created.filter
        (fun oor => oor.owner.is_immutable)).length = 2 ∧
      ramm_package_id_from_publish_response two_imm_response =
        .ok ⟨10⟩ := by
  constructor
  · decide
  · decide

/-- C5 (amended): the package-id extraction fails (with a panic, the
protocol-invariant failure mode) iff the publish response has no immutable
created object; otherwise it returns the id of the first immutable created
object — in particular, when exactly one exists, that object's id. -/
theorem C5_package_id_extraction (response : SuiTransactionBlockResponse)
    (effects : TransactionBlockEffects)
    (heff : response.effects = some effects) :
    (effects.created.filter (fun oor => oor.owner.is_immutable) = [] →
      (ramm_package_id_from_publish_response response).isPanic = true) ∧
    (∀ oor rest,
      effects.created.filter (fun oor => oor.owner.is_immutable) =
        oor :: rest →
      ramm_package_id_from_publish_response response =
        .ok oor.reference.object_id) := by
  constructor
  · intro h
    simp [ramm_package_id_from_publish_response, heff, h, PanicOr.isPanic]
  · intro oor rest h
    simp [ramm_package_id_from_publish_response, heff, h]

/-- C5 (witness): on a response with exactly one immutable created object,
the extraction returns that object's id. -/
theorem C5_witness :
    ramm_package_id_from_publish_response one_imm_response = .ok ⟨7⟩ :=
  (C5_package_id_extraction one_imm_response one_imm_effects rfl).2
    (imm_oor 7) [] (by decide)

/-- C6 (counterexample): a creation response with two shared created
objects does not fail; the extraction returns the first shared object
(mutable). This falsifies the claim that a shared-object count other than
one yields a protocol-invariant error. -/
theorem C6_counterexample :
    (two_shared_effects.created.filter
        (fun oor => oor.owner.is_shared)).length = 2 ∧
      build_ramm_obj_arg two_shared_response =
        .ok (.SharedObject ⟨20⟩ 5 true) := by
  constructor
  · decide
  · decide

/-- C6 (amended): the primitive extraction fails (with a panic, the
protocol-invariant failure mode) iff the creation response has no shared
created object; otherwise it returns the first shared created object's id
and initial shared version, marked `mutable := true` — in particular, when
exactly one shared object exists, that object. -/
theorem C6_ramm_extraction (response : SuiTransactionBlockResponse)
    (effects : TransactionBlockEffects)
    (heff : response.effects = some effects) :
    (effects.created.filter (fun oor => oor.owner.is_shared) = [] →
      (build_ramm_obj_arg response).isPanic = true) ∧
    (∀ oor rest v,
      effects.created.filter (fun oor => oor.owner.is_shared) =
        oor :: rest →
      oor.owner = .Shared v →
      build_ramm_obj_arg response =
        .ok (.SharedObject oor.object_id v true)) := by
  constructor
  · intro h
    simp [build_ramm_obj_arg, heff, h, PanicOr.isPanic]
  · intro oor rest v h hv
    simp [build_ramm_obj_arg, heff, h, hv]

/-- C6 (witness): on the well-shaped creation response (one shared object,
id 30, version 9), the extraction returns it as a mutable shared
argument. -/
theorem C6_witness :
    build_ramm_obj_arg creation_response =
      .ok (.SharedObject ⟨30⟩ 9 true) :=
  (C6_ramm_extraction creation_response creation_effects rfl).2
    (shared_oor 30 9) [] 9 (by decide) rfl

/-- An owner equals an address (as `PartialEq<SuiAddress>`) iff it is that
address's `AddressOwner`. -/
theorem Owner.eqAddress_true_iff (o : Owner) (addr : SuiAddress) :
    o.eqAddress addr = true ↔ o = .AddressOwner addr := by
  cases o <;> simp [Owner.eqAddress]

/-- Inversion for `query_type_name`: a reported name pins down a
successful read, present object data, and a declared struct type. -/
theorem query_type_name_spec (read : ObjectID → Except Unit SuiObjectResponse)
    (i : ObjectID) (nm : String) (h : query_type_name read i = some nm) :
    ∃ resp d, read i = .ok resp ∧ resp.data = some d ∧
      d.object_type = some (.Struct ⟨nm⟩) := by
  unfold query_type_name at h
  split at h
  · simp at h
  rename_i resp hr
  split at h
  · simp at h
  rename_i d hd
  split at h
  · rename_i mot hty
    simp at h
    subst h
    exact ⟨resp, d, hr, hd, hty⟩
  · simp at h

/-- C1: capability disambiguation. Given a creation response with exactly
one shared created object and exactly two created objects owned by the
calling address, if the single type query on the first owned object
reports the type name `RAMMAdminCap` the pair is assigned (first = admin,
second = new-asset); if it reports `RAMMNewAssetCap` the assignment is
swapped; any other reported type name panics (the protocol-invariant
failure). With zero or one owned objects, the function panics without the
outcome depending on the type query at all — it fails before issuing it. -/
theorem C1_cap_disambiguation
    (read1 read2 : ObjectID → Except Unit SuiObjectResponse)
    (response : SuiTransactionBlockResponse)
    (effects : TransactionBlockEffects) (client_address : SuiAddress)
    (heff : response.effects = some effects)
    (_hshared : (effects.created.filter
      (fun oor => oor.owner.is_shared)).length = 1) :
    (∀ o1 o2,
      effects.created.filter
          (fun oor => oor.owner.eqAddress client_address) = [o1, o2] →
      (query_type_name read1 o1.object_id = some "RAMMAdminCap" →
        build_ramm_cap_obj_args read1 response client_address =
          .ok (.ImmOrOwnedObject o1.reference,
               .ImmOrOwnedObject o2.reference)) ∧
      (query_type_name read1 o1.object_id = some "RAMMNewAssetCap" →
        build_ramm_cap_obj_args read1 response client_address =
          .ok (.ImmOrOwnedObject o2.reference,
               .ImmOrOwnedObject o1.reference)) ∧
      (∀ nm, query_type_name read1 o1.object_id = some nm →
        nm ≠ "RAMMAdminCap" → nm ≠ "RAMMNewAssetCap" →
        (build_ramm_cap_obj_args read1 response
          client_address).isPanic = true)) ∧
    ((effects.created.filter
        (fun oor => oor.owner.eqAddress client_address)).length ≤ 1 →
      build_ramm_cap_obj_args read1 response client_address =
        build_ramm_cap_obj_args read2 response client_address ∧
      (build_ramm_cap_obj_args read1 response
        client_address).isPanic = true) := by
  constructor
  · intro o1 o2 hfilter
    have hm1 : o1 ∈ effects.created.filter
        (fun oor => oor.owner.eqAddress client_address) := by
      rw [hfilter]; simp
    have hm2 : o2 ∈ effects.created.filter
        (fun oor => oor.owner.eqAddress client_address) := by
      rw [hfilter]; simp
    have h1 : o1.owner = .AddressOwner client_address :=
      (Owner.eqAddress_true_iff _ _).mp (List.mem_filter.mp hm1).2
    have h2 : o2.owner = .AddressOwner client_address :=
      (Owner.eqAddress_true_iff _ _).mp (List.mem_filter.mp hm2).2
    have hbuild : ∀ (read : ObjectID → Except Unit SuiObjectResponse),
        build_ramm_cap_obj_args read response client_address =
        (match read o1.object_id with
         | .error _ => .err .CapObjectQueryError
         | .ok cap_object =>
           match cap_object.data with
           | none => .panic "called unwrap on a None value"
           | some obj_data =>
             match obj_data.object_type with
             | none => .panic "called unwrap on a None value"
             | some .Package =>
               .panic "Type of cap object is ObjectType::Package: not supposed to happen!"
             | some (.Struct mot) =>
               if mot.name = "RAMMAdminCap" then
                 .ok (.ImmOrOwnedObject o1.reference,
                      .ImmOrOwnedObject o2.reference)
               else if mot.name = "RAMMNewAssetCap" then
                 .ok (.ImmOrOwnedObject o2.reference,
                      .ImmOrOwnedObject o1.reference)
               else
                 .panic "MoveObjectType must be of either capability: not supposed to happen!") := by
      intro read
      simp only [build_ramm_cap_obj_args, heff]
      rw [hfilter]
      simp [PanicOr.mapList, cap_obj_arg_of, h1, h2, ObjectArg.id,
        OwnedObjectRef.object_id]
    refine ⟨fun hq => ?_, fun hq => ?_, fun nm hq hna hnn => ?_⟩
    · obtain ⟨resp, d, hr, hd, hty⟩ := query_type_name_spec read1 _ _ hq
      rw [hbuild read1, hr]
      simp [hd, hty]
    · obtain ⟨resp, d, hr, hd, hty⟩ := query_type_name_spec read1 _ _ hq
      rw [hbuild read1, hr]
      simp [hd, hty]
    · obtain ⟨resp, d, hr, hd, hty⟩ := query_type_name_spec read1 _ _ hq
      rw [hbuild read1, hr]
      simp [hd, hty, hna, hnn, PanicOr.isPanic]
  · intro hlen
    rcases hl : effects.created.filter
        (fun oor => oor.owner.eqAddress client_address) with
      _ | ⟨x, _ | ⟨y, rest⟩⟩
    · constructor <;>
        simp [build_ramm_cap_obj_args, heff, hl, PanicOr.mapList,
          PanicOr.isPanic]
    · have hmx : x ∈ effects.created.filter
          (fun oor => oor.owner.eqAddress client_address) := by
        rw [hl]; simp
      have hx : x.owner = .AddressOwner client_address :=
        (Owner.eqAddress_true_iff _ _).mp (List.mem_filter.mp hmx).2
      constructor <;>
        simp [build_ramm_cap_obj_args, heff, hl, PanicOr.mapList,
          cap_obj_arg_of, hx, PanicOr.isPanic]
    · rw [hl] at hlen
      simp at hlen

/-- C1 (witness): on the well-shaped creation response (shared object 30,
owned objects 31 and 32, owner address 42), a type query reporting
`RAMMNewAssetCap` for object 31 makes object 32 the admin capability and
object 31 the new-asset capability. -/
theorem C1_witness :
    build_ramm_cap_obj_args
        (fun _ => .ok ⟨some ⟨some (.Struct ⟨"RAMMNewAssetCap"⟩), none⟩⟩)
        creation_response ⟨42⟩ =
      .ok (.ImmOrOwnedObject (owned_oor 32 ⟨42⟩).reference,
           .ImmOrOwnedObject (owned_oor 31 ⟨42⟩).reference) :=
  ((C1_cap_disambiguation
      (fun _ => .ok ⟨some ⟨some (.Struct ⟨"RAMMNewAssetCap"⟩), none⟩⟩)
      (fun _ => .ok ⟨some ⟨some (.Struct ⟨"RAMMNewAssetCap"⟩), none⟩⟩)
      creation_response creation_effects ⟨42⟩ rfl (by decide)).1
    (owned_oor 31 ⟨42⟩) (owned_oor 32 ⟨42⟩) (by decide)).2.1 rfl

/-- The aggregator loop on all-shared query results produces, in order,
one immutable shared-object argument per id/version pair. -/
theorem aggr_loop_ok (objs : List SuiObjectResponse) (vers : List Nat)
    (ids : List ObjectID) (ix : Nat) (acc : List ObjectArg)
    (hmap : objs.map (fun o => o.data.bind (fun d => d.owner)) =
      vers.map (fun v => some (.Shared v)))
    (hlen : ix + objs.length ≤ ids.length) :
    aggr_loop ids objs ix acc =
      .ok (acc ++ ((ids.drop ix).zip vers).map
        (fun p => .SharedObject p.1 p.2 false)) := by
  induction objs generalizing vers ix acc with
  | nil =>
    cases vers with
    | nil => simp [aggr_loop]
    | cons v vs => simp at hmap
  | cons o rest ih =>
    cases vers with
    | nil => simp at hmap
    | cons v vs =>
      simp only [List.map_cons, List.cons.injEq] at hmap
      obtain ⟨h1, h2⟩ := hmap
      obtain ⟨d, hd, how⟩ := Option.bind_eq_some.mp h1
      have hix : ix < ids.length := by
        simp at hlen; omega
      have hdrop : ids.drop ix = ids[ix] :: ids.drop (ix + 1) :=
        List.drop_eq_getElem_cons hix
      have hget : ids[ix]? = some ids[ix] := List.getElem?_eq_getElem hix
      conv_lhs => rw [aggr_loop]
      simp only [hd, how, hget]
      rw [ih vs (ix + 1) _ h2 (by simp at hlen ⊢; omega)]
      conv_rhs => rw [hdrop, List.zip_cons_cons, List.map_cons]
      simp

/-- If some well-formed query result among the remaining ones is not
shared, the aggregator loop does not succeed. -/
theorem aggr_loop_fail (ids : List ObjectID) (objs : List SuiObjectResponse)
    (ix : Nat) (acc : List ObjectArg)
    (h : ∃ o ∈ objs, wf_non_shared o) :
    (aggr_loop ids objs ix acc).isOk = false := by
  induction objs generalizing ix acc with
  | nil => simp at h
  | cons o rest ih =>
    obtain ⟨w, hw, hwns⟩ := h
    cases hd : o.data with
    | none =>
      conv_lhs => rw [aggr_loop]
      simp [hd, PanicOr.isOk]
    | some d =>
      cases how : d.owner with
      | none =>
        conv_lhs => rw [aggr_loop]
        simp [hd, how, PanicOr.isOk]
      | some ow =>
        cases ow with
        | Shared v =>
          rcases List.mem_cons.mp hw with rfl | hmem
          · obtain ⟨d2, hd2, ow2, how2, hne⟩ := hwns
            rw [hd] at hd2
            cases hd2
            rw [how] at how2
            cases how2
            exact absurd rfl (hne v)
          · cases hget : ids[ix]? with
            | none =>
              conv_lhs => rw [aggr_loop]
              simp [hd, how, hget, PanicOr.isOk]
            | some idv =>
              conv_lhs => rw [aggr_loop]
              simp only [hd, how, hget]
              exact ih (ix + 1) _ ⟨w, hmem, hwns⟩
        | AddressOwner a =>
          conv_lhs => rw [aggr_loop]
          simp [hd, how, PanicOr.isOk]
        | ObjectOwner a =>
          conv_lhs => rw [aggr_loop]
          simp [hd, how, PanicOr.isOk]
        | Immutable =>
          conv_lhs => rw [aggr_loop]
          simp [hd, how, PanicOr.isOk]

/-- C4: aggregator resolution. For a configuration whose `asset_count`
matches its N assets, if the batched read returns N results that are all
shared (at the versions `vers`), the resolver returns exactly the N
shared-object references, in asset order, each with `mutable := false`;
if any single returned result is well-formed but not shared, the whole
resolution fails and no list is returned. -/
theorem C4_aggregator_resolution
    (query : List ObjectID → Except Unit (List SuiObjectResponse))
    (cfg : RAMMDeploymentConfig) (objs : List SuiObjectResponse)
    (hq : query (cfg.assets.map
      (fun asset => ObjectID.ofAddress asset.aggregator_address)) =
      .ok objs)
    (hcount : cfg.asset_count = cfg.assets.length)
    (hlen : objs.length = cfg.assets.length) :
    (∀ vers : List Nat,
      objs.map (fun o => o.data.bind (fun d => d.owner)) =
        vers.map (fun v => some (.Shared v)) →
      build_aggr_obj_args query cfg =
        .ok (((cfg.assets.map
            (fun asset => ObjectID.ofAddress asset.aggregator_address)).zip
              vers).map
          (fun p => .SharedObject p.1 p.2 false))) ∧
    ((∃ o ∈ objs, wf_non_shared o) →
      (build_aggr_obj_args query cfg).isOk = false) := by
  constructor
  · intro vers hmap
    have hvers : vers.length = objs.length := by
      have := congrArg List.length hmap
      simpa using this.symm
    simp only [build_aggr_obj_args, hq]
    rw [aggr_loop_ok objs vers _ 0 [] hmap (by simp [hlen])]
    simp only [List.drop_zero, List.nil_append]
    rw [if_pos]
    simp [hcount, hvers, hlen]
  · intro hex
    simp only [build_aggr_obj_args, hq]
    have hfail := aggr_loop_fail
      (cfg.assets.map (fun asset => ObjectID.ofAddress asset.aggregator_address))
      objs 0 [] hex
    rcases hres : aggr_loop (cfg.assets.map
      (fun asset => ObjectID.ofAddress asset.aggregator_address))
      objs 0 [] with args | e | m
    · rw [hres] at hfail
      simp [PanicOr.isOk] at hfail
    · simp only [hres]
      simp [PanicOr.isOk]
    · simp only [hres]
      simp [PanicOr.isOk]

/-- C4 (witness): for the two-asset configuration with both aggregators
shared (versions 5 and 6), resolution returns the two shared references
in asset order; with the second aggregator address-owned, resolution
fails. -/
theorem C4_witness :
    build_aggr_obj_args good_aggr_query good_cfg =
        .ok [.SharedObject ⟨100⟩ 5 false, .SharedObject ⟨101⟩ 6 false] ∧
      (build_aggr_obj_args bad_aggr_query good_cfg).isOk = false := by
  constructor
  · have h := (C4_aggregator_resolution good_aggr_query good_cfg
      [shared_aggr_resp 5, shared_aggr_resp 6] rfl rfl rfl).1 [5, 6]
      (by decide)
    simpa using h
  · exact (C4_aggregator_resolution bad_aggr_query good_cfg
      [shared_aggr_resp 5, owned_aggr_resp ⟨9⟩] rfl rfl rfl).2
      ⟨owned_aggr_resp ⟨9⟩, by simp,
        ⟨⟨none, some (.AddressOwner ⟨9⟩)⟩, rfl,
          .AddressOwner ⟨9⟩, rfl, fun v => by simp⟩⟩

/-- Closed form of the add-asset loop: starting from any builder state, it
succeeds whenever every index is in bounds, appending the per-asset input
triples and the add-asset commands (whose input slots start at the current
input count). -/
theorem add_assets_loop_spec (cfg : RAMMDeploymentConfig) (pkg : ObjectID)
    (rA aA nA : Argument) (aggr : List ObjectArg) (ixs : List Nat)
    (ptb : ProgrammableTransactionBuilder)
    (h : ∀ ix ∈ ixs, ix < cfg.assets.length ∧ ix < aggr.length) :
    add_assets_loop cfg pkg rA aA nA aggr ixs ptb =
      .ok ⟨ptb.inputs ++ loop_inputs cfg aggr ixs,
           ptb.commands ++ loop_commands cfg pkg rA aA nA
             ptb.inputs.length ixs⟩ := by
  induction ixs generalizing ptb with
  | nil => simp [add_assets_loop, loop_inputs, loop_commands]
  | cons ix rest ih =>
    obtain ⟨h1, h2⟩ := h ix (List.mem_cons_self ix rest)
    have ha : cfg.assets[ix]? = some (cfg.assets.getD ix default) := by
      rw [List.getElem?_eq_getElem h1, List.getD_eq_getElem _ _ h1]
    have hg : aggr[ix]? = some (aggr.getD ix default) := by
      rw [List.getElem?_eq_getElem h2, List.getD_eq_getElem _ _ h2]
    conv_lhs => rw [add_assets_loop]
    simp only [ha, hg]
    rw [ih _ (fun j hj => h j (List.mem_cons_of_mem ix hj))]
    simp [ProgrammableTransactionBuilder.obj,
      ProgrammableTransactionBuilder.pureU64,
      ProgrammableTransactionBuilder.pureU8,
      ProgrammableTransactionBuilder.programmable_move_call,
      loop_inputs, loop_commands, asset_input_triple, add_asset_command,
      List.append_assoc]

/-- The add-asset loop appends one command per index. -/
theorem loop_commands_length (cfg : RAMMDeploymentConfig) (pkg : ObjectID)
    (rA aA nA : Argument) (ixs : List Nat) (base : Nat) :
    (loop_commands cfg pkg rA aA nA base ixs).length = ixs.length := by
  induction ixs generalizing base with
  | nil => simp [loop_commands]
  | cons ix rest ih => simp [loop_commands, ih]

/-- The `j`-th command the loop appends is the add-asset call for the
`j`-th index, with input slots starting at `base + 3 * j`. -/
theorem loop_commands_getElem (cfg : RAMMDeploymentConfig) (pkg : ObjectID)
    (rA aA nA : Argument) (ixs : List Nat) (base j : Nat)
    (hj : j < ixs.length) :
    (loop_commands cfg pkg rA aA nA base ixs)[j]? =
      some (add_asset_command cfg pkg rA aA nA (ixs.getD j 0)
        (base + 3 * j)) := by
  induction ixs generalizing base j with
  | nil => simp at hj
  | cons ix rest ih =>
    cases j with
    | zero => simp [loop_commands]
    | succ j =>
      have e : base + 3 * (j + 1) = base + 3 + 3 * j := by ring
      rw [loop_commands]
      rw [List.getElem?_cons_succ, ih (base + 3) j (by simpa using hj), e]
      simp

/-- The loop registers three inputs per index. -/
theorem loop_inputs_length (cfg : RAMMDeploymentConfig)
    (aggr : List ObjectArg) (ixs : List Nat) :
    (loop_inputs cfg aggr ixs).length = 3 * ixs.length := by
  induction ixs with
  | nil => simp [loop_inputs]
  | cons ix rest ih =>
    simp [loop_inputs, asset_input_triple, ih]
    ring

/-- The input triple the loop registers for its `j`-th index: the oracle
object, the minimum trade amount, and the decimal-places count of that
asset. -/
theorem loop_inputs_getElem (cfg : RAMMDeploymentConfig)
    (aggr : List ObjectArg) (ixs : List Nat) (j : Nat)
    (hj : j < ixs.length) :
    (loop_inputs cfg aggr ixs)[3 * j]? =
        some (.Object (aggr.getD (ixs.getD j 0) default)) ∧
      (loop_inputs cfg aggr ixs)[3 * j + 1]? =
        some (.Pure (.u64
          (cfg.assets.getD (ixs.getD j 0) default).minimum_trade_amount)) ∧
      (loop_inputs cfg aggr ixs)[3 * j + 2]? =
        some (.Pure (.u8
          (cfg.assets.getD (ixs.getD j 0) default).decimal_places)) := by
  induction ixs generalizing j with
  | nil => simp at hj
  | cons ix rest ih =>
    have hdrop3 : (loop_inputs cfg aggr (ix :: rest)).drop 3 =
        loop_inputs cfg aggr rest := by
      simp [loop_inputs, asset_input_triple]
    cases j with
    | zero => simp [loop_inputs, asset_input_triple]
    | succ j =>
      obtain ⟨i1, i2, i3⟩ := ih j (by simpa using hj)
      have e1 : 3 * (j + 1) = 3 + 3 * j := by ring
      have e2 : 3 * (j + 1) + 1 = 3 + (3 * j + 1) := by ring
      have e3 : 3 * (j + 1) + 2 = 3 + (3 * j + 2) := by ring
      refine ⟨?_, ?_, ?_⟩
      · rw [e1, ← List.getElem?_drop, hdrop3, i1]
        simp
      · rw [e2, ← List.getElem?_drop, hdrop3, i2]
        simp
      · rw [e3, ← List.getElem?_drop, hdrop3, i3]
        simp

/-- Shared characterization of `add_assets_and_init_ramm` under matching
lengths: the built transaction registers the three persistent inputs
first, then per-asset triples; its commands are the per-asset add-asset
calls followed by the closing `initialize_ramm` call over the three
persistent slots. -/
theorem add_assets_and_init_spec (cfg : RAMMDeploymentConfig)
    (client : SuiAddress) (pkg : ObjectID)
    (ramm_obj admin_obj new_obj : ObjectArg) (aggr : List ObjectArg)
    (coin : Coin) (gas_price : Nat)
    (hcount : cfg.asset_count = cfg.assets.length)
    (haggr : aggr.length = cfg.assets.length) :
    add_assets_and_init_ramm cfg client pkg ramm_obj admin_obj new_obj
        aggr coin gas_price =
      .ok { sender := client, gas_payment := [coin.object_ref],
            pt := { inputs := [.Object ramm_obj, .Object admin_obj,
                      .Object new_obj] ++
                      loop_inputs cfg aggr (List.range cfg.asset_count),
                    commands := loop_commands cfg pkg (.Input 0) (.Input 1)
                      (.Input 2) 3 (List.range cfg.asset_count) ++
                      [.MoveCall pkg RAMM_MODULE_NAME "initialize_ramm" []
                        [.Input 0, .Input 1, .Input 2]] },
            gas_budget := RAMM_PTB_GAS_BUDGET,
            gas_price := gas_price } := by
  have hbounds : ∀ ix ∈ List.range cfg.asset_count,
      ix < cfg.assets.length ∧ ix < aggr.length := by
    intro ix hix
    have := List.mem_range.mp hix
    omega
  unfold add_assets_and_init_ramm
  simp only [ProgrammableTransactionBuilder.new,
    ProgrammableTransactionBuilder.obj, List.length_nil,
    List.nil_append, List.length_append, List.length_cons,
    List.length_singleton]
  rw [add_assets_loop_spec cfg pkg _ _ _ aggr _ _ hbounds]
  simp [ProgrammableTransactionBuilder.programmable_move_call,
    ProgrammableTransactionBuilder.finish]

/-- C2: batched transaction structure. For a configuration whose
`asset_count` matches its N assets and per-asset oracle references, the
built programmable transaction holds exactly N add-asset calls followed by
exactly one `initialize_ramm` call as its final command, and that closing
call's arguments are exactly the three persistent input slots 0, 1 and 2 —
which are the primitive, the admin capability and the new-asset
capability, registered before any add-asset call. -/
theorem C2_batched_tx_structure (cfg : RAMMDeploymentConfig)
    (client : SuiAddress) (pkg : ObjectID)
    (ramm_obj admin_obj new_obj : ObjectArg) (aggr : List ObjectArg)
    (coin : Coin) (gas_price : Nat)
    (hcount : cfg.asset_count = cfg.assets.length)
    (haggr : aggr.length = cfg.assets.length) :
    ∃ td, add_assets_and_init_ramm cfg client pkg ramm_obj admin_obj
        new_obj aggr coin gas_price = .ok td ∧
      td.pt.commands.length = cfg.assets.length + 1 ∧
      (∀ j, j < cfg.assets.length →
        (td.pt.commands.getD j default).is_call_to pkg
          "add_asset_to_ramm" = true) ∧
      td.pt.commands.getD cfg.assets.length default =
        .MoveCall pkg RAMM_MODULE_NAME "initialize_ramm" []
          [.Input 0, .Input 1, .Input 2] ∧
      td.pt.inputs.take 3 =
        [.Object ramm_obj, .Object admin_obj, .Object new_obj] := by
  refine ⟨_, add_assets_and_init_spec cfg client pkg ramm_obj admin_obj
    new_obj aggr coin gas_price hcount haggr, ?_, ?_, ?_, ?_⟩
  · simp [loop_commands_length, hcount]
  · intro j hj
    have hlen : (loop_commands cfg pkg (.Input 0) (.Input 1) (.Input 2) 3
        (List.range cfg.asset_count)).length = cfg.assets.length := by
      simp [loop_commands_length, hcount]
    rw [List.getD_eq_getElem?_getD, List.getElem?_append,
      if_pos (by rw [hlen]; exact hj)]
    rw [loop_commands_getElem cfg pkg _ _ _ _ 3 j
      (by simp [hcount]; exact hj)]
    simp [add_asset_command, Command.is_call_to]
  · have hlen : (loop_commands cfg pkg (.Input 0) (.Input 1) (.Input 2) 3
        (List.range cfg.asset_count)).length = cfg.assets.length := by
      simp [loop_commands_length, hcount]
    rw [List.getD_eq_getElem?_getD,
      List.getElem?_append_right (by rw [hlen])]
    simp [hlen]
  · simp

/-- C2 (witness): for the two-asset configuration, the built transaction
has three commands — two add-asset calls then the closing initialize call
over input slots 0, 1, 2 — and its first three inputs are the primitive,
admin capability and new-asset capability. -/
theorem C2_witness :
    ∃ td, add_assets_and_init_ramm good_cfg ⟨42⟩ ⟨77⟩
        (.SharedObject ⟨30⟩ 9 true)
        (.ImmOrOwnedObject ⟨⟨31⟩, 1, ⟨31⟩⟩)
        (.ImmOrOwnedObject ⟨⟨32⟩, 1, ⟨32⟩⟩)
        [.SharedObject ⟨100⟩ 5 false, .SharedObject ⟨101⟩ 6 false]
        ⟨1000000, ⟨⟨200⟩, 1, ⟨200⟩⟩⟩ 750 = .ok td ∧
      td.pt.commands.length = good_cfg.assets.length + 1 ∧
      (∀ j, j < good_cfg.assets.length →
        (td.pt.commands.getD j default).is_call_to ⟨77⟩
          "add_asset_to_ramm" = true) ∧
      td.pt.commands.getD good_cfg.assets.length default =
        .MoveCall ⟨77⟩ RAMM_MODULE_NAME "initialize_ramm" []
          [.Input 0, .Input 1, .Input 2] ∧
      td.pt.inputs.take 3 =
        [.Object (.SharedObject ⟨30⟩ 9 true),
         .Object (.ImmOrOwnedObject ⟨⟨31⟩, 1, ⟨31⟩⟩),
         .Object (.ImmOrOwnedObject ⟨⟨32⟩, 1, ⟨32⟩⟩)] :=
  C2_batched_tx_structure good_cfg ⟨42⟩ ⟨77⟩
    (.SharedObject ⟨30⟩ 9 true)
    (.ImmOrOwnedObject ⟨⟨31⟩, 1, ⟨31⟩⟩)
    (.ImmOrOwnedObject ⟨⟨32⟩, 1, ⟨32⟩⟩)
    [.SharedObject ⟨100⟩ 5 false, .SharedObject ⟨101⟩ 6 false]
    ⟨1000000, ⟨⟨200⟩, 1, ⟨200⟩⟩⟩ 750 rfl rfl

/-- C7: add-asset call shape. Under matching lengths, the i-th add-asset
command has exactly one type argument — the i-th asset's type descriptor —
and its value arguments are, in order: the primitive slot (input 0), the
i-th oracle reference slot, the i-th asset's minimum-trade-amount slot,
the i-th asset's decimal-places slot, the admin-capability slot (input 1)
and the new-asset-capability slot (input 2); the oracle/amount/precision
slots hold exactly the i-th oracle reference (zipped by position) and the
i-th asset's two scalars. -/
theorem C7_add_asset_call_shape (cfg : RAMMDeploymentConfig)
    (client : SuiAddress) (pkg : ObjectID)
    (ramm_obj admin_obj new_obj : ObjectArg) (aggr : List ObjectArg)
    (coin : Coin) (gas_price : Nat) (i : Nat)
    (hcount : cfg.asset_count = cfg.assets.length)
    (haggr : aggr.length = cfg.assets.length)
    (hi : i < cfg.assets.length) :
    ∃ td, add_assets_and_init_ramm cfg client pkg ramm_obj admin_obj
        new_obj aggr coin gas_price = .ok td ∧
      td.pt.commands.getD i default =
        .MoveCall pkg RAMM_MODULE_NAME "add_asset_to_ramm"
          [(cfg.assets.getD i default).asset_type]
          [.Input 0, .Input (3 + 3 * i), .Input (3 + 3 * i + 1),
           .Input (3 + 3 * i + 2), .Input 1, .Input 2] ∧
      td.pt.inputs.getD 0 default = .Object ramm_obj ∧
      td.pt.inputs.getD 1 default = .Object admin_obj ∧
      td.pt.inputs.getD 2 default = .Object new_obj ∧
      td.pt.inputs.getD (3 + 3 * i) default =
        .Object (aggr.getD i default) ∧
      td.pt.inputs.getD (3 + 3 * i + 1) default =
        .Pure (.u64 (cfg.assets.getD i default).minimum_trade_amount) ∧
      td.pt.inputs.getD (3 + 3 * i + 2) default =
        .Pure (.u8 (cfg.assets.getD i default).decimal_places) := by
  refine ⟨_, add_assets_and_init_spec cfg client pkg ramm_obj admin_obj
    new_obj aggr coin gas_price hcount haggr, ?_, ?_, ?_, ?_, ?_, ?_, ?_⟩
  · have hlen : (loop_commands cfg pkg (.Input 0) (.Input 1) (.Input 2) 3
        (List.range cfg.asset_count)).length = cfg.assets.length := by
      simp [loop_commands_length, hcount]
    rw [List.getD_eq_getElem?_getD, List.getElem?_append,
      if_pos (by rw [hlen]; exact hi)]
    rw [loop_commands_getElem cfg pkg _ _ _ _ 3 i
      (by simp [hcount]; exact hi)]
    have hri : (List.range cfg.asset_count)[i]? = some i := by
      rw [List.getElem?_eq_getElem (by simp [hcount]; exact hi)]
      simp [List.getElem_range]
    simp [add_asset_command, hri]
  · simp
  · simp
  · simp
  · have hri : (List.range cfg.asset_count).getD i 0 = i := by
      rw [List.getD_eq_getElem _ _ (by simp [hcount]; exact hi)]
      exact List.getElem_range i _
    obtain ⟨i1, _, _⟩ := loop_inputs_getElem cfg aggr
      (List.range cfg.asset_count) i (by simp [hcount]; exact hi)
    rw [List.getD_eq_getElem?_getD, List.getElem?_append_right
      (by simp)]
    simp only [List.length_cons, List.length_nil]
    rw [show 3 + 3 * i - 3 = 3 * i by omega, i1, hri]
    simp
  · have hri : (List.range cfg.asset_count).getD i 0 = i := by
      rw [List.getD_eq_getElem _ _ (by simp [hcount]; exact hi)]
      exact List.getElem_range i _
    obtain ⟨_, i2, _⟩ := loop_inputs_getElem cfg aggr
      (List.range cfg.asset_count) i (by simp [hcount]; exact hi)
    rw [List.getD_eq_getElem?_getD, List.getElem?_append_right
      (by simp; omega)]
    simp only [List.length_cons, List.length_nil]
    rw [show 3 + 3 * i + 1 - 3 = 3 * i + 1 by omega, i2, hri]
    simp
  · have hri : (List.range cfg.asset_count).getD i 0 = i := by
      rw [List.getD_eq_getElem _ _ (by simp [hcount]; exact hi)]
      exact List.getElem_range i _
    obtain ⟨_, _, i3⟩ := loop_inputs_getElem cfg aggr
      (List.range cfg.asset_count) i (by simp [hcount]; exact hi)
    rw [List.getD_eq_getElem?_getD, List.getElem?_append_right
      (by simp; omega)]
    simp only [List.length_cons, List.length_nil]
    rw [show 3 + 3 * i + 2 - 3 = 3 * i + 2 by omega, i3, hri]
    simp

/-- C7 (witness): in the two-asset transaction, the second add-asset call
(index 1) carries the ETH type tag, argument slots
[0, 6, 7, 8, 1, 2], and those slots hold the second oracle reference, the
minimum trade amount 1 and the decimal precision 8. -/
theorem C7_witness :
    ∃ td, add_assets_and_init_ramm good_cfg ⟨42⟩ ⟨77⟩
        (.SharedObject ⟨30⟩ 9 true)
        (.ImmOrOwnedObject ⟨⟨31⟩, 1, ⟨31⟩⟩)
        (.ImmOrOwnedObject ⟨⟨32⟩, 1, ⟨32⟩⟩)
        [.SharedObject ⟨100⟩ 5 false, .SharedObject ⟨101⟩ 6 false]
        ⟨1000000, ⟨⟨200⟩, 1, ⟨200⟩⟩⟩ 750 = .ok td ∧
      td.pt.commands.getD 1 default =
        .MoveCall ⟨77⟩ RAMM_MODULE_NAME "add_asset_to_ramm"
          [(good_cfg.assets.getD 1 default).asset_type]
          [.Input 0, .Input (3 + 3 * 1), .Input (3 + 3 * 1 + 1),
           .Input (3 + 3 * 1 + 2), .Input 1, .Input 2] ∧
      td.pt.inputs.getD 0 default =
        .Object (.SharedObject ⟨30⟩ 9 true) ∧
      td.pt.inputs.getD 1 default =
        .Object (.ImmOrOwnedObject ⟨⟨31⟩, 1, ⟨31⟩⟩) ∧
      td.pt.inputs.getD 2 default =
        .Object (.ImmOrOwnedObject ⟨⟨32⟩, 1, ⟨32⟩⟩) ∧
      td.pt.inputs.getD (3 + 3 * 1) default =
        .Object ([ObjectArg.SharedObject ⟨100⟩ 5 false,
          .SharedObject ⟨101⟩ 6 false].getD 1 default) ∧
      td.pt.inputs.getD (3 + 3 * 1 + 1) default =
        .Pure (.u64 (good_cfg.assets.getD 1 default).minimum_trade_amount) ∧
      td.pt.inputs.getD (3 + 3 * 1 + 2) default =
        .Pure (.u8 (good_cfg.assets.getD 1 default).decimal_places) :=
  C7_add_asset_call_shape good_cfg ⟨42⟩ ⟨77⟩
    (.SharedObject ⟨30⟩ 9 true)
    (.ImmOrOwnedObject ⟨⟨31⟩, 1, ⟨31⟩⟩)
    (.ImmOrOwnedObject ⟨⟨32⟩, 1, ⟨32⟩⟩)
    [.SharedObject ⟨100⟩ 5 false, .SharedObject ⟨101⟩ 6 false]
    ⟨1000000, ⟨⟨200⟩, 1, ⟨200⟩⟩⟩ 750 1 rfl rfl (by decide)

/-- C9: package-source parsing. If the string parses as an `ObjectID` the
reuse branch (`FromTomlConfig`) is taken; otherwise it is infallibly taken
as a filesystem path (`FromPkgPublication`) — the path branch can never
fail since `PathBuf::from_str` has an empty error type, so every string is
accepted at this stage. -/
theorem C9_de_addr_or_path (parseObjectID : String → Option ObjectID)
    (s : String) :
    (∀ obj, parseObjectID s = some obj →
      de_addr_or_path parseObjectID s = .ok (.FromTomlConfig obj)) ∧
    (parseObjectID s = none →
      de_addr_or_path parseObjectID s = .ok (.FromPkgPublication s)) ∧
    (∃ r, de_addr_or_path parseObjectID s = .ok r) := by
  refine ⟨fun obj h => ?_, fun h => ?_, ?_⟩
  · simp [de_addr_or_path, h]
  · simp [de_addr_or_path, h, pathBufFromStr]
  · cases h : parseObjectID s <;>
      simp [de_addr_or_path, h, pathBufFromStr]

/-- C9 (witness): a non-id string becomes a publication path; an id string
becomes a configured package id. -/
theorem C9_witness :
    de_addr_or_path (fun _ => none) "../ramm-sui" =
        .ok (.FromPkgPublication "../ramm-sui") ∧
      de_addr_or_path (fun _ => some ⟨2⟩) "0x2" =
        .ok (.FromTomlConfig ⟨2⟩) :=
  ⟨(C9_de_addr_or_path (fun _ => none) "../ramm-sui").2.1 rfl,
   (C9_de_addr_or_path (fun _ => some ⟨2⟩) "0x2").1 ⟨2⟩ rfl⟩

/-- C8: fail-closed ordering. If the TOML file is read and parsed but the
configuration fails validation, the pipeline rejects it with the
configuration error `InvalidConfigData`, and a whole run of the deployer
binary performs no network operation at all — no client is built and no
ledger call of any kind occurs, whatever the user assent and whatever the
network would have answered. -/
theorem C8_fail_closed (read_file : String → Except Unit String)
    (parse_toml : String → Except Unit RAMMDeploymentConfig)
    (toml_path s : String) (cfg : RAMMDeploymentConfig)
    (hread : read_file toml_path = .ok s)
    (hparse : parse_toml s = .ok cfg)
    (hval : cfg.validate_ramm_cfg = false) :
    deployment_cfg_from_args read_file parse_toml (.ok (some toml_path)) =
        .error .InvalidConfigData ∧
      ∀ (assent : UserAssent) (env : NetEnv),
        main_bin_ops read_file parse_toml (.ok (some toml_path)) assent
          env = [] := by
  have hcfg : parse_ramm_cfg read_file parse_toml toml_path =
      .error .InvalidConfigData := by
    simp [parse_ramm_cfg, hread, hparse, hval]
  constructor
  · simp [deployment_cfg_from_args, hcfg]
  · intro assent env
    simp [main_bin_ops, deployment_cfg_from_args, hcfg]

/-- C8 (witness): a zero-asset configuration is rejected as
`InvalidConfigData` and the run with full user assent and an
all-successful network performs no network operation. -/
theorem C8_witness :
    deployment_cfg_from_args (fun _ => .ok "toml")
        (fun _ => .ok zero_count_cfg) (.ok (some "ramm.toml")) =
        .error .InvalidConfigData ∧
      main_bin_ops (fun _ => .ok "toml") (fun _ => .ok zero_count_cfg)
        (.ok (some "ramm.toml")) .Accepted
        ⟨true, true, true, true, true, true, true⟩ = [] := by
  obtain ⟨h1, h2⟩ := C8_fail_closed (fun _ => .ok "toml")
    (fun _ => .ok zero_count_cfg) "ramm.toml" "toml" zero_count_cfg
    rfl rfl (by decide)
  exact ⟨h1, h2 .Accepted ⟨true, true, true, true, true, true, true⟩⟩

/-- C10: `get_coin_and_gas` returns the first listed coin together with
the reference gas price whenever the coin list is non-empty — whatever
that coin's balance is, so the balance is never checked against the gas
budget — and aborts with a panic (not a typed error) exactly when the
list is empty. -/
theorem C10_get_coin_and_gas :
    (∀ (coin : Coin) (rest : List Coin) (gas : Nat),
      get_coin_and_gas (.ok (coin :: rest)) (.ok gas) = .ok (coin, gas)) ∧
    (∀ (balance : Nat) (r : SuiObjectRef) (rest : List Coin) (gas : Nat),
      get_coin_and_gas (.ok (⟨balance, r⟩ :: rest)) (.ok gas) =
        .ok (⟨balance, r⟩, gas)) ∧
    (∀ gasQuery, get_coin_and_gas (.ok []) gasQuery =
      .panic "No coins associated to active address!") :=
  ⟨fun _ _ _ => rfl, fun _ _ _ _ => rfl, fun _ => rfl⟩

end RammSuiDeploy
